import Mathlib

/-!
Shallow embedding of the Nazdeeki backend authentication subsystem:
the OTP send/verify flow, the refresh-token session manager, the bearer
middleware, the 2Factor SMS adapter, and the transactional cascade
deletion of seller accounts.  Timestamps are abstract ticks (seconds as
`Nat`); SHA-256 hashing and JWT signing are abstracted as injective-free
opaque-function parameters collected in `Env`; every external outcome
(SMS gateway, provider-side OTP verification) is an explicit input.
-/

namespace Nazdeeki

/-! ## Data model (relational rows as structures, tables as lists) -/

/-- A row of the `sellers` table (the columns the auth flow touches). -/
structure Seller where
  seller_id : String
  owner_name : String
  restaurant_name : String
  rest_phone : String
  phone_verified : Bool
  account_status : String
  address_id : Option Nat
  menu_id : Option Nat
  last_login : Option Nat
deriving Repr, DecidableEq

/-- A row of the `otp_attempts` table. -/
structure OtpAttempt where
  id : Nat
  phone_number : String
  otp_hash : String
  created_at : Nat
  expires_at : Nat
  verified_at : Option Nat
  attempts : Nat
  ip_address : String
  is_signup : Bool
  session_id : Option String
  sms_provider : String
  sms_status : String
deriving Repr, DecidableEq

/-- A row of the `auth_sessions` table (refresh-token grants). -/
structure AuthSession where
  session_id : Nat
  seller_id : String
  refresh_token_hash : String
  device_info : String
  ip_address : String
  expires_at : Nat
  is_active : Bool
  last_used : Option Nat
deriving Repr, DecidableEq

/-- A row of the append-only `auth_logs` audit table. -/
structure AuthLog where
  seller_id : Option String
  phone_number : Option String
  event_type : String
  ip_address : String
  user_agent : String
  success : Bool
  error_message : Option String
deriving Repr, DecidableEq

/-- A row of a dependent table keyed by a denormalized `rest_id` column
(`collection`, `likes`, `order_list`, `orders`, `rating`). -/
structure DepRow where
  id : Nat
  rest_id : String
deriving Repr, DecidableEq

/-- A row of the `menu` table (`item_id` primary key, `rest_id` owner). -/
structure MenuRow where
  item_id : Nat
  rest_id : String
deriving Repr, DecidableEq

/-- A row of the `addresses` table. -/
structure Address where
  address_id : Nat
  rest_id : String
deriving Repr, DecidableEq

/-- The database state: every table the auth subsystem reads or writes. -/
structure DB where
  sellers : List Seller
  otp_attempts : List OtpAttempt
  auth_sessions : List AuthSession
  auth_logs : List AuthLog
  collection : List DepRow
  likes : List DepRow
  menu : List MenuRow
  order_list : List DepRow
  orders : List DepRow
  rating : List DepRow
  addresses : List Address
deriving Repr, DecidableEq

/-! ## JWTs

A signed token is modelled as its claims plus the secret it was signed
with and its absolute expiry; `jwtVerify` succeeds exactly when the
secret matches (signature validity) and the token is unexpired, which is
what `jsonwebtoken`'s `verify` checks. -/

/-- The claim set the backend puts into its JWTs. -/
structure JwtPayload where
  userId : String
  phone : String
  name : String
  restaurant : String
  addressId : Option Nat
  menuId : Option Nat
  type : String
deriving Repr, DecidableEq

/-- A signed JWT. -/
structure Jwt where
  payload : JwtPayload
  secret : String
  exp : Nat
deriving Repr, DecidableEq

/-- Model of `jwt.verify(token, secret)`: returns the payload iff the signature
checks out (same secret) and the token is unexpired; otherwise throws,
modelled as `none`. -/
def jwtVerify (token : Jwt) (secret : String) (now : Nat) : Option JwtPayload :=
  if token.secret == secret && now < token.exp then some token.payload else none

/-- Ambient configuration: the JWT secret, the SHA-256 hex digest
function (`hashToken`) applied to OTP strings, the same digest applied
to serialized refresh tokens, and the success outcome of provider-side
OTP verification (`verify2FactorOTP`) per (sessionId, otp). -/
structure Env where
  secret : String
  hashToken : String → String
  jwtHash : Jwt → String
  factorVerify : String → String → Bool

/-! ## OTP provider adapter (`smsService.js`, `send2FactorOTP`) -/

/-- The outcome of the single outbound HTTP call the adapter makes:
a timeout (`ECONNABORTED`), an HTTP error response, a reply carrying the
provider `Status`/`Details` fields, or a transport failure with no
response object. -/
inductive NetOutcome where
  | timeout
  | httpError (status : Nat) (data : String)
  | reply (st : String) (details : String)
  | netFail (msg : String)
deriving Repr, DecidableEq

/-- The structured result `send2FactorOTP` returns to its caller. -/
structure SendSmsResult where
  success : Bool
  sessionId : Option String
  error : Option String
  phoneNumber : Option String
deriving Repr, DecidableEq

/-- Model of `phoneNumber.replace(/^\+91/, '').replace(/\D/g, '')`: strip one
leading "+91" prefix, then drop every non-digit character. -/
def cleanPhone (s : String) : String :=
  let cs := s.toList
  let stripped := if cs.take 3 = ['+', '9', '1'] then cs.drop 3 else cs
  String.mk (stripped.filter Char.isDigit)

/-- Model of `send2FactorOTP(phoneNumber, otp)`.  The network is consulted only
when the cleaned number has exactly 10 digits; the length-check `throw`
is caught by the adapter's own catch-all and surfaces as the generic
structured failure.  Every branch returns a structured result. -/
def send2FactorOTP (phoneNumber : String) (net : NetOutcome) : SendSmsResult :=
  let clean := cleanPhone phoneNumber
  if clean.length ≠ 10 then
    { success := false, sessionId := none,
      error := some "Failed to send SMS", phoneNumber := none }
  else
    match net with
    | .reply st details =>
        if st == "Success" then
          { success := true, sessionId := some details,
            error := none, phoneNumber := some clean }
        else
          { success := false, sessionId := none,
            error := some "Failed to send SMS", phoneNumber := none }
    | .timeout =>
        { success := false, sessionId := none,
          error := some "SMS service timeout. Please try again.", phoneNumber := none }
    | .httpError status _ =>
        { success := false, sessionId := none,
          error := some ("SMS service error: " ++ toString status), phoneNumber := none }
    | .netFail _ =>
        { success := false, sessionId := none,
          error := some "Failed to send SMS", phoneNumber := none }

/-! ## Shared helpers of the auth router (`authRoutes.js`) -/

/-- Model of `logAuthEvent`: appends one row to the append-only `auth_logs`
table. -/
def logEvent (db : DB) (eventType : String) (phone : Option String)
    (sellerId : Option String) (success : Bool) (err : Option String)
    (ip ua : String) : DB :=
  { db with auth_logs :=
      db.auth_logs ++ [⟨sellerId, phone, eventType, ip, ua, success, err⟩] }

/-- The `SELECT ... FROM otp_attempts WHERE phone_number = $1 AND
expires_at > NOW() ORDER BY created_at DESC LIMIT 1` lookup: the row
with the greatest creation time among the unexpired rows for the
phone. -/
def latestValidOtp (rows : List OtpAttempt) (phone : String) (now : Nat) :
    Option OtpAttempt :=
  (rows.filter (fun r => r.phone_number == phone && now < r.expires_at)).foldl
    (fun acc r =>
      match acc with
      | none => some r
      | some b => if b.created_at < r.created_at then some r else some b) none

/-- Model of `UPDATE otp_attempts SET ... WHERE id = $1`. -/
def updateOtpRow (rows : List OtpAttempt) (i : Nat)
    (f : OtpAttempt → OtpAttempt) : List OtpAttempt :=
  rows.map (fun r => if r.id == i then f r else r)

/-- Model of `SELECT COALESCE(MAX(item_id), 0) FROM menu`. -/
def maxItemId (menu : List MenuRow) : Nat :=
  menu.foldl (fun m r => max m r.item_id) 0

/-- The suspended-account check of send-OTP: `!isSignup &&
seller.account_status === 'suspended'` on the first row returned for the
phone. -/
def suspendedCheck (rows : List Seller) : Bool :=
  match rows.head? with
  | some s => s.account_status == "suspended"
  | none => false

/-! ## POST /auth/send-otp -/

/-- The JSON surface of the send-OTP response. -/
structure SendOtpOut where
  status : Nat
  error : Option String
  success : Bool
  isSignup : Option Bool
  smsProvider : Option String
  smsStatus : Option String
deriving Repr, DecidableEq

/-- An error response of the send-OTP handler. -/
def sendOtpErr (code : Nat) (msg : String) : SendOtpOut :=
  { status := code, error := some msg, success := false,
    isSignup := none, smsProvider := none, smsStatus := none }

/-- Model of `router.post('/send-otp')` of the instrumented auth router.
Inputs beyond the request: the clock `now`, the fresh row id the
database assigns, the randomly generated 4-digit `otp`, and the SMS
gateway outcome `net`. -/
def sendOtp (env : Env) (now newOtpId : Nat) (otp : String)
    (net : NetOutcome) (ip ua phoneNumber : String) (db : DB) :
    SendOtpOut × DB :=
  if phoneNumber.length < 10 then
    (sendOtpErr 400 "Valid phone number required",
     logEvent db "otp_request" (some phoneNumber) none false
       (some "Invalid phone number") ip ua)
  else
    let sellerRows := db.sellers.filter (fun s => s.rest_phone == phoneNumber)
    let isSignup := sellerRows.isEmpty
    let sellerId := sellerRows.head?.map (fun s => s.seller_id)
    if !isSignup && suspendedCheck sellerRows then
      (sendOtpErr 403 "Account is suspended",
       logEvent db "otp_request" (some phoneNumber) sellerId false
         (some "Account suspended") ip ua)
    else
      let attemptCount :=
        (db.otp_attempts.filter (fun a =>
          a.phone_number == phoneNumber && now < a.created_at + 3600)).length
      if 5 ≤ attemptCount then
        (sendOtpErr 429 "Too many OTP requests. Try again later.",
         logEvent db "otp_request" (some phoneNumber) sellerId false
           (some "Rate limit exceeded") ip ua)
      else
        let otpHash := env.hashToken otp
        let expiresAt := now + 300
        let smsResult := send2FactorOTP phoneNumber net
        let smsProvider := if smsResult.success then "2factor" else "console"
        let smsStatus := if smsResult.success then "sent" else "fallback"
        let sessionId := if smsResult.success then smsResult.sessionId else none
        let newRow : OtpAttempt :=
          { id := newOtpId, phone_number := phoneNumber, otp_hash := otpHash,
            created_at := now, expires_at := expiresAt, verified_at := none,
            attempts := 0, ip_address := ip, is_signup := isSignup,
            session_id := sessionId, sms_provider := smsProvider,
            sms_status := smsStatus }
        let db1 := { db with otp_attempts := db.otp_attempts ++ [newRow] }
        let db2 := logEvent db1 "otp_sent" (some phoneNumber) sellerId
          smsResult.success
          (if smsResult.success then none else smsResult.error) ip ua
        ({ status := 200, error := none, success := true,
           isSignup := some isSignup, smsProvider := some smsProvider,
           smsStatus := some smsStatus }, db2)

/-! ## POST /auth/verify-otp -/

/-- The signup profile fields carried in the request body. -/
structure SignupData where
  ownerName : String
  restaurantName : String
deriving Repr, DecidableEq

/-- The JSON surface of the verify-OTP response. -/
structure VerifyOut where
  status : Nat
  error : Option String
  success : Bool
  isSignup : Option Bool
  accessToken : Option Jwt
  refreshToken : Option Jwt
deriving Repr, DecidableEq

/-- An error response of the verify-OTP handler. -/
def verifyErr (code : Nat) (msg : String) : VerifyOut :=
  { status := code, error := some msg, success := false,
    isSignup := none, accessToken := none, refreshToken := none }

/-- The provider-side verification attempt of verify-OTP: tried only
when the attempt row carries a provider session id and was sent via the
live provider, and it succeeds only when `verify2FactorOTP` does. -/
def factorAttempt (env : Env) (r : OtpAttempt) (otp : String) : Bool :=
  match r.session_id with
  | some sid => r.sms_provider == "2factor" && env.factorVerify sid otp
  | none => false

/-- Whether the signup profile fields required at verification time are
absent: no `signupData`, or a missing/empty `ownerName` or
`restaurantName` (JavaScript falsiness of the field). -/
def missingSignupFields (signupData : Option SignupData) : Bool :=
  match signupData with
  | none => true
  | some sd => sd.ownerName == "" || sd.restaurantName == ""

/-- The tail of the verify-OTP handler shared by the signup and login
branches: sign the access and refresh JWTs and insert the
`auth_sessions` row storing the refresh-token hash. -/
def issueTokens (env : Env) (now newSessionId : Nat)
    (ip ua phoneNumber : String) (isNew : Bool) (seller : Seller)
    (db : DB) : VerifyOut × DB :=
  let access : Jwt :=
    { payload := { userId := seller.seller_id, phone := phoneNumber,
                   name := seller.owner_name,
                   restaurant := seller.restaurant_name,
                   addressId := seller.address_id, menuId := seller.menu_id,
                   type := "access" },
      secret := env.secret, exp := now + 900 }
  let refreshTok : Jwt :=
    { payload := { userId := seller.seller_id, phone := phoneNumber,
                   name := "", restaurant := "", addressId := none,
                   menuId := none, type := "refresh" },
      secret := env.secret, exp := now + 604800 }
  let sess : AuthSession :=
    { session_id := newSessionId, seller_id := seller.seller_id,
      refresh_token_hash := env.jwtHash refreshTok, device_info := ua,
      ip_address := ip, expires_at := now + 604800, is_active := true,
      last_used := none }
  ({ status := 200, error := none, success := true, isSignup := some isNew,
     accessToken := some access, refreshToken := some refreshTok },
   { db with auth_sessions := db.auth_sessions ++ [sess] })

/-- Model of `router.post('/verify-otp')` of the instrumented auth router.
Inputs beyond the request: the clock, the generated seller id, the
`get_next_address_id()` value, and the fresh session row id. -/
def verifyOtp (env : Env) (now : Nat) (genSellerId : String)
    (nextAddressId newSessionId : Nat) (ip ua phoneNumber otp : String)
    (signupData : Option SignupData) (db : DB) : VerifyOut × DB :=
  if phoneNumber == "" || otp == "" then
    (verifyErr 400 "Phone number and OTP required", db)
  else
    match latestValidOtp db.otp_attempts phoneNumber now with
    | none =>
        (verifyErr 400 "No valid OTP found or OTP expired",
         logEvent db "otp_verify" (some phoneNumber) none false
           (some "No valid OTP found") ip ua)
    | some r =>
      if 3 ≤ r.attempts then
        (verifyErr 400 "Too many failed attempts",
         logEvent db "otp_verify" (some phoneNumber) none false
           (some "Too many attempts") ip ua)
      else
        let fromFactor := factorAttempt env r otp
        let otpVerified := fromFactor || (r.otp_hash == env.hashToken otp)
        let method := if fromFactor then "2factor" else "local"
        if !otpVerified then
          let bumped := updateOtpRow db.otp_attempts r.id
            (fun x => { x with attempts := x.attempts + 1 })
          let db1 := { db with otp_attempts := bumped }
          (verifyErr 400 "Invalid OTP",
           logEvent db1 "otp_verify" (some phoneNumber) none false
             (some "Invalid OTP") ip ua)
        else
          let marked := updateOtpRow db.otp_attempts r.id
            (fun x => { x with verified_at := some now,
                               sms_status := "verified_" ++ method })
          let db1 := { db with otp_attempts := marked }
          if r.is_signup then
            match signupData with
            | none =>
                (verifyErr 400 "Owner name and restaurant name required for signup",
                 db1)
            | some sd =>
              if sd.ownerName == "" || sd.restaurantName == "" then
                (verifyErr 400 "Owner name and restaurant name required for signup",
                 db1)
              else
                let menuId := maxItemId db1.menu + 1
                let newSeller : Seller :=
                  { seller_id := genSellerId, owner_name := sd.ownerName,
                    restaurant_name := sd.restaurantName,
                    rest_phone := phoneNumber, phone_verified := true,
                    account_status := "active",
                    address_id := some nextAddressId,
                    menu_id := some menuId, last_login := none }
                let db2 := { db1 with sellers := db1.sellers ++ [newSeller] }
                let db3 := logEvent db2 "signup" (some phoneNumber)
                  (some genSellerId) true none ip ua
                issueTokens env now newSessionId ip ua phoneNumber true
                  newSeller db3
          else
            match (db1.sellers.filter
                    (fun s => s.rest_phone == phoneNumber)).head? with
            | none => (verifyErr 404 "Seller not found", db1)
            | some seller =>
              let db2 := { db1 with sellers := db1.sellers.map (fun s =>
                if s.seller_id == seller.seller_id then
                  { s with last_login := some now, phone_verified := true }
                else s) }
              let db3 := logEvent db2 "login" (some phoneNumber)
                (some seller.seller_id) true none ip ua
              issueTokens env now newSessionId ip ua phoneNumber false
                seller db3

/-! ## POST /auth/refresh -/

/-- The JSON surface of the refresh response: a new access token only,
never a new refresh token. -/
structure RefreshOut where
  status : Nat
  error : Option String
  success : Bool
  accessToken : Option Jwt
deriving Repr, DecidableEq

/-- An error response of the refresh handler. -/
def refreshErr (code : Nat) (msg : String) : RefreshOut :=
  { status := code, error := some msg, success := false, accessToken := none }

/-- Model of `router.post('/refresh')`: verify the token signature and expiry,
check the declared type, look up a matching active unexpired session by
hash, advance `last_used`, re-read the seller row and sign a fresh
access token from it. -/
def refreshHandler (env : Env) (now : Nat) (refreshToken : Option Jwt)
    (db : DB) : RefreshOut × DB :=
  match refreshToken with
  | none => (refreshErr 400 "Refresh token required", db)
  | some tok =>
    match jwtVerify tok env.secret now with
    | none => (refreshErr 401 "Invalid or expired refresh token", db)
    | some payload =>
      if payload.type == "refresh" then
        let tokHash := env.jwtHash tok
        let sessionRows := db.auth_sessions.filter (fun s =>
          s.seller_id == payload.userId && s.refresh_token_hash == tokHash &&
          s.is_active && now < s.expires_at)
        match sessionRows.head? with
        | none => (refreshErr 401 "Invalid or expired refresh token", db)
        | some s0 =>
          let touched := db.auth_sessions.map (fun s =>
            if s.session_id == s0.session_id then { s with last_used := some now }
            else s)
          let db1 := { db with auth_sessions := touched }
          match (db1.sellers.filter
                  (fun s => s.seller_id == payload.userId)).head? with
          | none => (refreshErr 404 "User not found", db1)
          | some seller =>
            let newAccess : Jwt :=
              { payload := { userId := seller.seller_id,
                             phone := seller.rest_phone,
                             name := seller.owner_name,
                             restaurant := seller.restaurant_name,
                             addressId := seller.address_id,
                             menuId := seller.menu_id, type := "access" },
                secret := env.secret, exp := now + 900 }
            ({ status := 200, error := none, success := true,
               accessToken := some newAccess }, db1)
      else (refreshErr 400 "Invalid token type", db)

/-! ## Bearer middleware and GET /auth/me -/

/-- The outcome of `authMiddleware`: either a 401 rejection or the
request proceeds with the resolved user id attached. -/
inductive MwOutcome where
  | rejected (status : Nat) (msg : String)
  | passed (userId : String)
deriving Repr, DecidableEq

/-- Model of `authMiddleware` (`src/middlewares/authMiddleware.js`), mounted in
front of every `/api` data route: verifies the bearer JWT's signature
and expiry only, and attaches `payload.userId`.  It performs no check
of the token's declared `type` claim. -/
def authMiddleware (secret : String) (now : Nat) (bearer : Option Jwt) :
    MwOutcome :=
  match bearer with
  | none => .rejected 401 "Missing Bearer token"
  | some tok =>
    match jwtVerify tok secret now with
    | none => .rejected 401 "Invalid or expired token"
    | some payload => .passed payload.userId

/-- The JSON surface of the GET /auth/me response; the success payload
is the seller projection (the address enrichment sub-query only adds
response fields and is elided). -/
structure MeOut where
  status : Nat
  error : Option String
  success : Bool
  user : Option Seller
deriving Repr, DecidableEq

/-- Model of `router.get('/me')`: requires a bearer token that is
signature-valid, unexpired, and declares `type: 'access'`. -/
def getMe (env : Env) (now : Nat) (bearer : Option Jwt) (db : DB) : MeOut :=
  match bearer with
  | none => ⟨401, some "Missing Bearer token", false, none⟩
  | some tok =>
    match jwtVerify tok env.secret now with
    | none => ⟨401, some "Invalid or expired token", false, none⟩
    | some payload =>
      if payload.type == "access" then
        match (db.sellers.filter
                (fun s => s.seller_id == payload.userId)).head? with
        | none => ⟨404, some "User not found", false, none⟩
        | some seller => ⟨200, none, true, some seller⟩
      else ⟨401, some "Invalid token type", false, none⟩

/-! ## Cascade deletion (`handleSellerDeletion`, tableRoutes)

The handler runs ten statements inside one database transaction: it
deletes the seller's `auth_sessions` rows, the rows of the six
`rest_id`-keyed dependent tables, reads the seller's `address_id`,
deletes the seller row, and finally deletes the linked address when no
seller still references it.  `auth_logs` is deliberately not touched.
The transaction is modelled as a working copy: the steps below mutate
the working state (with the saved `address_id` as the one cross-step
register), and only a completed run is committed; a failure at any step
rolls the database back to its initial state. -/

/-- Working state of the deletion transaction: the uncommitted database
plus the `address_id` captured before the seller row is deleted. -/
abbrev TxState := DB × Option Nat

/-- The ten statements of `handleSellerDeletion`, in source order. -/
def cascadeSteps (sid : String) : List (TxState → TxState) :=
  [ fun t => ({ t.1 with auth_sessions := t.1.auth_sessions.filter (fun s => !(s.seller_id == sid)) }, t.2),
    fun t => ({ t.1 with collection := t.1.collection.filter (fun r => !(r.rest_id == sid)) }, t.2),
    fun t => ({ t.1 with likes := t.1.likes.filter (fun r => !(r.rest_id == sid)) }, t.2),
    fun t => ({ t.1 with menu := t.1.menu.filter (fun r => !(r.rest_id == sid)) }, t.2),
    fun t => ({ t.1 with order_list := t.1.order_list.filter (fun r => !(r.rest_id == sid)) }, t.2),
    fun t => ({ t.1 with orders := t.1.orders.filter (fun r => !(r.rest_id == sid)) }, t.2),
    fun t => ({ t.1 with rating := t.1.rating.filter (fun r => !(r.rest_id == sid)) }, t.2),
    fun t => (t.1, ((t.1.sellers.filter (fun s => s.seller_id == sid)).head?).bind (fun s => s.address_id)),
    fun t => ({ t.1 with sellers := t.1.sellers.filter (fun s => !(s.seller_id == sid)) }, t.2),
    fun t =>
      match t.2 with
      | some aid =>
          if (t.1.sellers.filter (fun s => s.address_id == some aid)).length == 0 then
            ({ t.1 with addresses := t.1.addresses.filter (fun a => !(a.address_id == aid)) }, t.2)
          else t
      | none => t ]

/-- The committed effect of a fully successful deletion transaction. -/
def cascadeDelete (db : DB) (sid : String) : DB :=
  ((cascadeSteps sid).foldl (fun t f => f t) (db, none)).1

/-- One run of the transaction: `failAt = some k` means statement `k`
(0-based) raised, so `rollbackTransaction` discards the working copy;
otherwise `commitTransaction` publishes it. -/
def runCascadeTx (db : DB) (sid : String) (failAt : Option Nat) : DB :=
  match failAt with
  | some k =>
      if k < (cascadeSteps sid).length then db else cascadeDelete db sid
  | none => cascadeDelete db sid

/-! ## Helper lemmas -/

theorem logEvent_otp_attempts (db : DB) (e : String) (p sid : Option String)
    (ok : Bool) (err : Option String) (ip ua : String) :
    (logEvent db e p sid ok err ip ua).otp_attempts = db.otp_attempts := rfl

theorem logEvent_sellers (db : DB) (e : String) (p sid : Option String)
    (ok : Bool) (err : Option String) (ip ua : String) :
    (logEvent db e p sid ok err ip ua).sellers = db.sellers := rfl

theorem logEvent_auth_sessions (db : DB) (e : String) (p sid : Option String)
    (ok : Bool) (err : Option String) (ip ua : String) :
    (logEvent db e p sid ok err ip ua).auth_sessions = db.auth_sessions := rfl

/-- The address id linked to a seller row: the capture step of the
deletion transaction reads it before the seller row is deleted. -/
def linkedAddressId (db : DB) (sid : String) : Option Nat :=
  ((db.sellers.filter (fun s => s.seller_id == sid)).head?).bind
    (fun s => s.address_id)

/-! ## Concrete sample data for closed evaluations -/

/-- A concrete environment: a tag-suffix stand-in for the SHA-256
digest, a serializing stand-in for the refresh-token digest, and a
provider that never verifies (no live gateway). -/
def envC : Env :=
  { secret := "sec",
    hashToken := fun s => s ++ "#",
    jwtHash := fun t => t.payload.userId ++ "@" ++ toString t.exp,
    factorVerify := fun _ _ => false }

/-- A concrete active seller. -/
def sellerS1 : Seller :=
  { seller_id := "S1", owner_name := "Asha", restaurant_name := "Spice",
    rest_phone := "9999999999", phone_verified := true,
    account_status := "active", address_id := some 7, menu_id := some 1,
    last_login := none }

/-- A concrete stored, unexpired, unverified OTP attempt for the login
flow (fallback provider, so verification is by local hash). -/
def otpRow1 : OtpAttempt :=
  { id := 1, phone_number := "9999999999", otp_hash := "1234#",
    created_at := 100, expires_at := 500, verified_at := none,
    attempts := 0, ip_address := "ip", is_signup := false,
    session_id := none, sms_provider := "console", sms_status := "sent" }

/-- A concrete database holding the seller, the OTP attempt and the
seller's address row. -/
def dbLogin : DB :=
  { sellers := [sellerS1], otp_attempts := [otpRow1], auth_sessions := [],
    auth_logs := [], collection := [], likes := [], menu := [],
    order_list := [], orders := [], rating := [],
    addresses := [⟨7, "S1"⟩] }

/-- A second concrete seller sharing address 7 with `sellerS1`. -/
def sellerS2 : Seller :=
  { seller_id := "S2", owner_name := "Ben", restaurant_name := "Chaat",
    rest_phone := "8888888888", phone_verified := true,
    account_status := "active", address_id := some 7, menu_id := some 2,
    last_login := none }

/-- A concrete database in which two sellers share address 7. -/
def dbShared : DB :=
  { sellers := [sellerS1, sellerS2], otp_attempts := [], auth_sessions := [],
    auth_logs := [], collection := [], likes := [], menu := [],
    order_list := [], orders := [], rating := [],
    addresses := [⟨7, "S1"⟩] }

/-! ## Claim theorems -/

/-- C9: the OTP provider adapter's send operation always returns a
structured `{success, ...}` result (it is a total function into
`SendSmsResult`, never an exception).  When the cleaned number is not
exactly 10 digits it fails without consulting the network (the result
does not depend on the network outcome); and the result is a success
exactly when the number is valid and the provider replied with status
"Success" — a timeout, HTTP error, transport failure, or non-success
provider status each yield a structured failure. -/
theorem send2FactorOTP_structured (phone : String) (net net2 : NetOutcome) :
    ((cleanPhone phone).length ≠ 10 →
      (send2FactorOTP phone net).success = false ∧
      send2FactorOTP phone net = send2FactorOTP phone net2) ∧
    ((send2FactorOTP phone net).success = true ↔
      (cleanPhone phone).length = 10 ∧
        ∃ d, net = NetOutcome.reply "Success" d) := by
  constructor
  · intro h
    simp [send2FactorOTP, h]
  · by_cases h : (cleanPhone phone).length = 10
    · simp only [send2FactorOTP, h, ne_eq, not_true_eq_false, if_false,
        true_and]
      cases net with
      | reply st details =>
          by_cases hst : st = "Success"
          · subst hst
            simp
          · simp [hst, beq_eq_false_iff_ne.mpr hst]
      | timeout => simp
      | httpError status data => simp
      | netFail msg => simp
    · simp [send2FactorOTP, h]

/-- C9 witness: an 11-digit input fails without a network call, and a
valid "+91"-prefixed number with a successful provider reply
succeeds. -/
theorem send2FactorOTP_structured_w :
    (send2FactorOTP "12345" NetOutcome.timeout).success = false ∧
    (send2FactorOTP "+919876543210"
      (NetOutcome.reply "Success" "sid")).success = true := by
  constructor
  · exact ((send2FactorOTP_structured "12345" NetOutcome.timeout
      NetOutcome.timeout).1 (by decide)).1
  · exact (send2FactorOTP_structured "+919876543210"
      (NetOutcome.reply "Success" "sid") NetOutcome.timeout).2.mpr
      ⟨by decide, "sid", rfl⟩

/-- C8: a run of the seller-deletion transaction is atomic: if any of
the ten statements fails the database is rolled back to exactly its
prior state, and in every case the observable result is either the
untouched initial state or the fully completed cascade — never a
partial cascade. -/
theorem runCascadeTx_atomic (db : DB) (sid : String) (failAt : Option Nat) :
    (∀ k, failAt = some k → k < (cascadeSteps sid).length →
       runCascadeTx db sid failAt = db) ∧
    (runCascadeTx db sid failAt = db ∨
     runCascadeTx db sid failAt = cascadeDelete db sid) := by
  constructor
  · intro k hk hlt
    subst hk
    simp [runCascadeTx, hlt]
  · cases failAt with
    | none => right; rfl
    | some k =>
        by_cases h : k < (cascadeSteps sid).length
        · left; simp [runCascadeTx, h]
        · right; simp [runCascadeTx, h]

/-- C8 witness: a failure at the fourth statement of the transaction
leaves the concrete database exactly as it was. -/
theorem runCascadeTx_atomic_w :
    runCascadeTx dbLogin "S1" (some 3) = dbLogin :=
  (runCascadeTx_atomic dbLogin "S1" (some 3)).1 3 rfl (by decide)

/-- C7: cascade-deleting an account removes its `auth_sessions` rows
and the rows of the six dependent tables keyed to its id, removes the
account row, leaves `auth_logs` untouched, and deletes the linked
address row only when no remaining account references that address
id. -/
theorem cascadeDelete_spec (db : DB) (sid : String) :
    (cascadeDelete db sid).auth_logs = db.auth_logs ∧
    (cascadeDelete db sid).auth_sessions =
      db.auth_sessions.filter (fun s => !(s.seller_id == sid)) ∧
    (cascadeDelete db sid).collection =
      db.collection.filter (fun r => !(r.rest_id == sid)) ∧
    (cascadeDelete db sid).likes =
      db.likes.filter (fun r => !(r.rest_id == sid)) ∧
    (cascadeDelete db sid).menu =
      db.menu.filter (fun r => !(r.rest_id == sid)) ∧
    (cascadeDelete db sid).order_list =
      db.order_list.filter (fun r => !(r.rest_id == sid)) ∧
    (cascadeDelete db sid).orders =
      db.orders.filter (fun r => !(r.rest_id == sid)) ∧
    (cascadeDelete db sid).rating =
      db.rating.filter (fun r => !(r.rest_id == sid)) ∧
    (cascadeDelete db sid).sellers =
      db.sellers.filter (fun s => !(s.seller_id == sid)) ∧
    (linkedAddressId db sid = none →
      (cascadeDelete db sid).addresses = db.addresses) ∧
    (∀ aid, linkedAddressId db sid = some aid →
      ((∀ s ∈ (cascadeDelete db sid).sellers, ¬ s.address_id = some aid) →
        (cascadeDelete db sid).addresses =
          db.addresses.filter (fun a => !(a.address_id == aid))) ∧
      ((∃ s ∈ (cascadeDelete db sid).sellers, s.address_id = some aid) →
        (cascadeDelete db sid).addresses = db.addresses)) := by
  simp only [cascadeDelete, cascadeSteps, List.foldl_cons, List.foldl_nil,
    linkedAddressId]
  cases hA : (List.filter (fun s => s.seller_id == sid) db.sellers).head?.bind
      (fun s => s.address_id) with
  | none =>
      exact ⟨rfl, rfl, rfl, rfl, rfl, rfl, rfl, rfl, rfl, fun _ => rfl,
        fun aid h => Option.noConfusion h⟩
  | some aid =>
      dsimp only
      by_cases hE : ((List.filter (fun s => s.address_id == some aid)
          (List.filter (fun s => !(s.seller_id == sid)) db.sellers)).length
            == 0) = true
      · rw [if_pos hE]
        refine ⟨rfl, rfl, rfl, rfl, rfl, rfl, rfl, rfl, rfl,
          fun h => Option.noConfusion h, ?_⟩
        rintro aid' h
        obtain rfl : aid = aid' := by injection h
        refine ⟨fun _ => rfl, ?_⟩
        rintro ⟨s, hs, hsa⟩
        exfalso
        rw [beq_iff_eq, List.length_eq_zero] at hE
        have hmem : s ∈ List.filter (fun s => s.address_id == some aid)
            (List.filter (fun s => !(s.seller_id == sid)) db.sellers) := by
          rw [List.mem_filter]
          exact ⟨hs, by simp [hsa]⟩
        rw [hE] at hmem
        exact absurd hmem (List.not_mem_nil s)
      · rw [if_neg hE]
        refine ⟨rfl, rfl, rfl, rfl, rfl, rfl, rfl, rfl, rfl,
          fun h => Option.noConfusion h, ?_⟩
        rintro aid' h
        obtain rfl : aid = aid' := by injection h
        refine ⟨?_, fun _ => rfl⟩
        intro hall
        exfalso
        apply hE
        rw [beq_iff_eq, List.length_eq_zero, List.eq_nil_iff_forall_not_mem]
        intro s hmem
        rw [List.mem_filter] at hmem
        exact hall s hmem.1 (by simpa using hmem.2)

/-- C7 witness: deleting S1 while S2 still shares address 7 keeps the
address row; deleting the only referencing seller removes it; and the
audit log is untouched. -/
theorem cascadeDelete_spec_w :
    (cascadeDelete dbShared "S1").addresses = dbShared.addresses ∧
    (cascadeDelete dbLogin "S1").addresses =
      dbLogin.addresses.filter (fun a => !(a.address_id == 7)) ∧
    (cascadeDelete dbLogin "S1").auth_logs = dbLogin.auth_logs := by
  refine ⟨?_, ?_, ?_⟩
  · exact ((cascadeDelete_spec dbShared "S1").2.2.2.2.2.2.2.2.2.2 7
      (by decide)).2 ⟨sellerS2, by decide, rfl⟩
  · exact ((cascadeDelete_spec dbLogin "S1").2.2.2.2.2.2.2.2.2.2 7
      (by decide)).1 (by decide)
  · exact (cascadeDelete_spec dbLogin "S1").1

/-- C4: with a well-formed phone number and no suspended account,
send-OTP is rejected with 429 and leaves `otp_attempts` unchanged when
5 or more rows for the phone were created within the last rolling hour,
and with fewer than 5 such rows it succeeds and appends exactly one new
row. -/
theorem sendOtp_rate_limit (env : Env) (now newOtpId : Nat) (otp : String)
    (net : NetOutcome) (ip ua phoneNumber : String) (db : DB)
    (hlen : 10 ≤ phoneNumber.length)
    (hsusp : suspendedCheck
      (db.sellers.filter (fun s => s.rest_phone == phoneNumber)) = false) :
    (5 ≤ (db.otp_attempts.filter (fun a =>
        a.phone_number == phoneNumber && now < a.created_at + 3600)).length →
      (sendOtp env now newOtpId otp net ip ua phoneNumber db).1.status = 429 ∧
      (sendOtp env now newOtpId otp net ip ua phoneNumber db).2.otp_attempts =
        db.otp_attempts) ∧
    ((db.otp_attempts.filter (fun a =>
        a.phone_number == phoneNumber && now < a.created_at + 3600)).length < 5 →
      (sendOtp env now newOtpId otp net ip ua phoneNumber db).1.status = 200 ∧
      ∃ row,
        (sendOtp env now newOtpId otp net ip ua phoneNumber db).2.otp_attempts =
          db.otp_attempts ++ [row]) := by
  have h1 : ¬ phoneNumber.length < 10 := by omega
  constructor
  · intro h5
    simp [sendOtp, sendOtpErr, h1, hsusp, h5, logEvent]
  · intro h5
    have h5' : ¬ 5 ≤ (db.otp_attempts.filter (fun a =>
        a.phone_number == phoneNumber && now < a.created_at + 3600)).length := by
      omega
    refine ⟨?_, ?_⟩
    · simp [sendOtp, sendOtpErr, h1, hsusp, h5']
    · simp [sendOtp, sendOtpErr, h1, hsusp, h5', logEvent]

/-- Five OTP rows created within the rolling hour before tick 200. -/
def dbRate : DB :=
  { dbLogin with otp_attempts :=
      [{ otpRow1 with id := 1 }, { otpRow1 with id := 2 },
       { otpRow1 with id := 3 }, { otpRow1 with id := 4 },
       { otpRow1 with id := 5 }] }

/-- C4 witness: with five recent rows the concrete request is rejected
with 429 and inserts nothing; with one recent row it succeeds and
appends exactly one row. -/
theorem sendOtp_rate_limit_w :
    ((sendOtp envC 200 9 "1234" NetOutcome.timeout "ip" "ua" "9999999999"
        dbRate).1.status = 429 ∧
     (sendOtp envC 200 9 "1234" NetOutcome.timeout "ip" "ua" "9999999999"
        dbRate).2.otp_attempts = dbRate.otp_attempts) ∧
    ((sendOtp envC 200 9 "1234" NetOutcome.timeout "ip" "ua" "9999999999"
        dbLogin).1.status = 200 ∧
     ∃ row,
       (sendOtp envC 200 9 "1234" NetOutcome.timeout "ip" "ua" "9999999999"
          dbLogin).2.otp_attempts = dbLogin.otp_attempts ++ [row]) := by
  constructor
  · exact (sendOtp_rate_limit envC 200 9 "1234" NetOutcome.timeout "ip" "ua"
      "9999999999" dbRate (by decide) (by decide)).1 (by decide)
  · exact (sendOtp_rate_limit envC 200 9 "1234" NetOutcome.timeout "ip" "ua"
      "9999999999" dbLogin (by decide) (by decide)).2 (by decide)

/-- C5: against the latest unexpired OTP attempt, a verify call on a row
whose failure counter is already at least 3 is rejected with 'too many
failed attempts' before any verification is tried (no hypothesis about
the submitted code is needed) and mutates no OTP row; and a verify call
where the provider-side attempt and the local hash comparison both fail
increments exactly that row's failure counter by one and rejects with
'Invalid OTP'. -/
theorem verifyOtp_attempt_counter (env : Env) (now : Nat)
    (genSellerId : String) (nextAddressId newSessionId : Nat)
    (ip ua phoneNumber otp : String) (signupData : Option SignupData)
    (db : DB) (r : OtpAttempt)
    (hne : (phoneNumber == "" || otp == "") = false)
    (hsel : latestValidOtp db.otp_attempts phoneNumber now = some r) :
    (3 ≤ r.attempts →
      (verifyOtp env now genSellerId nextAddressId newSessionId ip ua
        phoneNumber otp signupData db).1 =
          verifyErr 400 "Too many failed attempts" ∧
      (verifyOtp env now genSellerId nextAddressId newSessionId ip ua
        phoneNumber otp signupData db).2.otp_attempts = db.otp_attempts) ∧
    (r.attempts < 3 →
      factorAttempt env r otp = false →
      (r.otp_hash == env.hashToken otp) = false →
      (verifyOtp env now genSellerId nextAddressId newSessionId ip ua
        phoneNumber otp signupData db).1 = verifyErr 400 "Invalid OTP" ∧
      (verifyOtp env now genSellerId nextAddressId newSessionId ip ua
        phoneNumber otp signupData db).2.otp_attempts =
        db.otp_attempts.map (fun x =>
          if x.id == r.id then { x with attempts := x.attempts + 1 }
          else x)) := by
  constructor
  · intro hcap
    simp [verifyOtp, hne, hsel, hcap, logEvent]
  · intro hcap hff hh
    have hcap' : ¬ 3 ≤ r.attempts := by omega
    simp [verifyOtp, hne, hsel, hcap', hff, hh, logEvent, updateOtpRow]

/-- An exhausted concrete OTP attempt (failure counter at the cap). -/
def otpRow3 : OtpAttempt := { otpRow1 with attempts := 3 }

/-- A concrete database whose only OTP attempt is exhausted. -/
def dbCap : DB := { dbLogin with otp_attempts := [otpRow3] }

/-- C5 witness: the concrete exhausted attempt is rejected even though
the submitted code is the correct one, and a concrete wrong-code verify
bumps the row's counter from 0 to 1. -/
theorem verifyOtp_attempt_counter_w :
    ((verifyOtp envC 200 "SX" 9 1 "ip" "ua" "9999999999" "1234" none
        dbCap).1 = verifyErr 400 "Too many failed attempts" ∧
     (verifyOtp envC 200 "SX" 9 1 "ip" "ua" "9999999999" "1234" none
        dbCap).2.otp_attempts = dbCap.otp_attempts) ∧
    ((verifyOtp envC 200 "SX" 9 1 "ip" "ua" "9999999999" "9999" none
        dbLogin).1 = verifyErr 400 "Invalid OTP" ∧
     (verifyOtp envC 200 "SX" 9 1 "ip" "ua" "9999999999" "9999" none
        dbLogin).2.otp_attempts =
       dbLogin.otp_attempts.map (fun x =>
         if x.id == otpRow1.id then { x with attempts := x.attempts + 1 }
         else x)) := by
  constructor
  · exact (verifyOtp_attempt_counter envC 200 "SX" 9 1 "ip" "ua"
      "9999999999" "1234" none dbCap otpRow3 (by decide) (by decide)).1
      (by decide)
  · exact (verifyOtp_attempt_counter envC 200 "SX" 9 1 "ip" "ua"
      "9999999999" "9999" none dbLogin otpRow1 (by decide) (by decide)).2
      (by decide) (by decide) (by decide)

/-- C10: when a signup-flagged attempt is verified with the correct code
(local hash match, no provider session) but the signup profile fields
are missing, the handler rejects with the validation error only after
the OTP row has already been mutated to verified (`verified_at` set,
status `verified_local`); no seller row, session row, or audit-log row
is written. -/
theorem verifyOtp_mark_before_signup_validation (env : Env) (now : Nat)
    (genSellerId : String) (nextAddressId newSessionId : Nat)
    (ip ua phoneNumber otp : String) (signupData : Option SignupData)
    (db : DB) (r : OtpAttempt)
    (hne : (phoneNumber == "" || otp == "") = false)
    (hsel : latestValidOtp db.otp_attempts phoneNumber now = some r)
    (hcap : r.attempts < 3)
    (hff : factorAttempt env r otp = false)
    (hh : (r.otp_hash == env.hashToken otp) = true)
    (hsg : r.is_signup = true)
    (hmiss : missingSignupFields signupData = true) :
    (verifyOtp env now genSellerId nextAddressId newSessionId ip ua
      phoneNumber otp signupData db).1 =
        verifyErr 400 "Owner name and restaurant name required for signup" ∧
    (verifyOtp env now genSellerId nextAddressId newSessionId ip ua
      phoneNumber otp signupData db).2.otp_attempts =
      db.otp_attempts.map (fun x =>
        if x.id == r.id then
          { x with verified_at := some now, sms_status := "verified_local" }
        else x) ∧
    (verifyOtp env now genSellerId nextAddressId newSessionId ip ua
      phoneNumber otp signupData db).2.sellers = db.sellers ∧
    (verifyOtp env now genSellerId nextAddressId newSessionId ip ua
      phoneNumber otp signupData db).2.auth_sessions = db.auth_sessions ∧
    (verifyOtp env now genSellerId nextAddressId newSessionId ip ua
      phoneNumber otp signupData db).2.auth_logs = db.auth_logs := by
  have hcap' : ¬ 3 ≤ r.attempts := by omega
  cases signupData with
  | none =>
      simp [verifyOtp, hne, hsel, hcap', hff, hh, hsg, updateOtpRow]
  | some sd =>
      have hsd : (sd.ownerName == "" || sd.restaurantName == "") = true := by
        simpa [missingSignupFields] using hmiss
      simp [verifyOtp, hne, hsel, hcap', hff, hh, hsg, hsd, updateOtpRow]

/-- A concrete signup-flagged OTP attempt. -/
def otpRowSignup : OtpAttempt := { otpRow1 with is_signup := true }

/-- A concrete database for the signup flow: no seller yet, one
signup-flagged attempt. -/
def dbSignup : DB :=
  { dbLogin with sellers := [], otp_attempts := [otpRowSignup], addresses := [] }

/-- C10 witness: the concrete correct-code signup verify without
profile fields fails with the validation error, yet the stored attempt
has been marked verified; no seller or session was created. -/
theorem verifyOtp_mark_before_signup_validation_w :
    (verifyOtp envC 200 "SX" 9 1 "ip" "ua" "9999999999" "1234" none
      dbSignup).1 =
        verifyErr 400 "Owner name and restaurant name required for signup" ∧
    (verifyOtp envC 200 "SX" 9 1 "ip" "ua" "9999999999" "1234" none
      dbSignup).2.otp_attempts =
      dbSignup.otp_attempts.map (fun x =>
        if x.id == otpRowSignup.id then
          { x with verified_at := some 200,
                   sms_status := "verified_local" }
        else x) ∧
    (verifyOtp envC 200 "SX" 9 1 "ip" "ua" "9999999999" "1234" none
      dbSignup).2.sellers = dbSignup.sellers ∧
    (verifyOtp envC 200 "SX" 9 1 "ip" "ua" "9999999999" "1234" none
      dbSignup).2.auth_sessions = dbSignup.auth_sessions ∧
    (verifyOtp envC 200 "SX" 9 1 "ip" "ua" "9999999999" "1234" none
      dbSignup).2.auth_logs = dbSignup.auth_logs :=
  verifyOtp_mark_before_signup_validation envC 200 "SX" 9 1 "ip" "ua"
    "9999999999" "1234" none dbSignup otpRowSignup (by decide) (by decide)
    (by decide) (by decide) (by decide) (by decide) (by decide)

/-- C1 (amended): the latest-unexpired lookup does not exclude verified
attempts, so an already-verified (but unexpired, under the failure cap)
attempt is still eligible and a repeated verify call with the same
correct code succeeds again with HTTP 200 — it does not fail with 'no
valid OTP found'. -/
theorem verifyOtp_reverify_verified (env : Env) (now t : Nat)
    (genSellerId : String) (nextAddressId newSessionId : Nat)
    (ip ua phoneNumber otp : String) (signupData : Option SignupData)
    (db : DB) (r : OtpAttempt) (seller : Seller)
    (hne : (phoneNumber == "" || otp == "") = false)
    (hsel : latestValidOtp db.otp_attempts phoneNumber now = some r)
    (hver : r.verified_at = some t)
    (hcap : r.attempts < 3)
    (hff : factorAttempt env r otp = false)
    (hh : (r.otp_hash == env.hashToken otp) = true)
    (hsg : r.is_signup = false)
    (hfind : (db.sellers.filter
      (fun s => s.rest_phone == phoneNumber)).head? = some seller) :
    (verifyOtp env now genSellerId nextAddressId newSessionId ip ua
      phoneNumber otp signupData db).1.status = 200 ∧
    (verifyOtp env now genSellerId nextAddressId newSessionId ip ua
      phoneNumber otp signupData db).1.success = true ∧
    (verifyOtp env now genSellerId nextAddressId newSessionId ip ua
      phoneNumber otp signupData db).1.error = none := by
  have hcap' : ¬ 3 ≤ r.attempts := by omega
  simp [verifyOtp, hne, hsel, hcap', hff, hh, hsg, hfind, issueTokens]

/-- The first verify call of the double-verification scenario. -/
def c1FirstCall : VerifyOut × DB :=
  verifyOtp envC 200 "SX" 9 1 "ip" "ua" "9999999999" "1234" none dbLogin

/-- The second verify call, replayed with the same code against the
state the first call produced. -/
def c1SecondCall : VerifyOut × DB :=
  verifyOtp envC 210 "SY" 11 2 "ip" "ua" "9999999999" "1234" none
    c1FirstCall.2

/-- C1 counterexample: on the concrete stored, unexpired attempt the
first verify with the correct code succeeds — and so does an immediate
second verify with the same code (HTTP 200, no error), instead of
failing with the claimed 'no valid OTP found' rejection. -/
theorem verifyOtp_double_verify_cex :
    c1FirstCall.1.status = 200 ∧ c1FirstCall.1.success = true ∧
    c1SecondCall.1.status = 200 ∧ c1SecondCall.1.success = true ∧
    ¬ c1SecondCall.1.error = some "No valid OTP found or OTP expired" := by
  decide

/-- The OTP row as the first verify call leaves it: marked verified but
still unexpired and selectable. -/
def otpRow1v : OtpAttempt :=
  { otpRow1 with verified_at := some 200, sms_status := "verified_local" }

/-- C1 witness (for the amended claim): the concrete already-verified
attempt left behind by the first call is verified again
successfully. -/
theorem verifyOtp_reverify_verified_w :
    (verifyOtp envC 210 "SY" 11 2 "ip" "ua" "9999999999" "1234" none
      c1FirstCall.2).1.status = 200 ∧
    (verifyOtp envC 210 "SY" 11 2 "ip" "ua" "9999999999" "1234" none
      c1FirstCall.2).1.success = true ∧
    (verifyOtp envC 210 "SY" 11 2 "ip" "ua" "9999999999" "1234" none
      c1FirstCall.2).1.error = none :=
  verifyOtp_reverify_verified envC 210 200 "SY" 11 2 "ip" "ua"
    "9999999999" "1234" none c1FirstCall.2 otpRow1v
    { sellerS1 with last_login := some 200 } (by decide) (by decide)
    (by decide) (by decide) (by decide) (by decide) (by decide) (by decide)

/-- Projections other than `last_used` are untouched when only the
matched session row's `last_used` is advanced. -/
theorem map_touch_preserves {α : Type} (l : List AuthSession)
    (sid now : Nat) (g : AuthSession → α)
    (hg : ∀ s : AuthSession, g { s with last_used := some now } = g s) :
    (l.map (fun s =>
      if s.session_id == sid then { s with last_used := some now }
      else s)).map g = l.map g := by
  rw [List.map_map]
  apply List.map_congr_left
  intro s _
  simp only [Function.comp_apply]
  split
  · exact hg s
  · rfl

/-- C6: a successful refresh responds with a fresh access token whose
account claims are read from the seller row in the database (not from
the claims inside the presented refresh token), advances only the
matched session row's `last_used` timestamp, and issues no new refresh
token: the response type carries only an access token, the session
table keeps the same number of rows, and every row's refresh-token
hash, active flag, and expiry are unchanged — so the presented refresh
token remains the valid one. -/
theorem refresh_success_fresh (env : Env) (now : Nat) (tok : Jwt)
    (db : DB) (s0 : AuthSession) (seller : Seller)
    (hsig : tok.secret = env.secret) (hexp : now < tok.exp)
    (htype : tok.payload.type = "refresh")
    (hsess : (db.auth_sessions.filter (fun s =>
      s.seller_id == tok.payload.userId &&
      s.refresh_token_hash == env.jwtHash tok &&
      s.is_active && now < s.expires_at)).head? = some s0)
    (hsell : (db.sellers.filter
      (fun s => s.seller_id == tok.payload.userId)).head? = some seller) :
    (refreshHandler env now (some tok) db).1.status = 200 ∧
    (refreshHandler env now (some tok) db).1.accessToken = some
      { payload := { userId := seller.seller_id, phone := seller.rest_phone,
                     name := seller.owner_name,
                     restaurant := seller.restaurant_name,
                     addressId := seller.address_id,
                     menuId := seller.menu_id, type := "access" },
        secret := env.secret, exp := now + 900 } ∧
    (refreshHandler env now (some tok) db).2.auth_sessions =
      db.auth_sessions.map (fun s =>
        if s.session_id == s0.session_id then { s with last_used := some now }
        else s) ∧
    (refreshHandler env now (some tok) db).2.auth_sessions.map
        (fun s => s.refresh_token_hash) =
      db.auth_sessions.map (fun s => s.refresh_token_hash) ∧
    (refreshHandler env now (some tok) db).2.auth_sessions.map
        (fun s => s.is_active) =
      db.auth_sessions.map (fun s => s.is_active) ∧
    (refreshHandler env now (some tok) db).2.auth_sessions.map
        (fun s => s.expires_at) =
      db.auth_sessions.map (fun s => s.expires_at) ∧
    (refreshHandler env now (some tok) db).2.auth_sessions.length =
      db.auth_sessions.length := by
  have hdb : (refreshHandler env now (some tok) db).2.auth_sessions =
      db.auth_sessions.map (fun s =>
        if s.session_id == s0.session_id then { s with last_used := some now }
        else s) := by
    simp [refreshHandler, jwtVerify, hsig, hexp, htype, hsess, hsell]
  refine ⟨?_, ?_, hdb, ?_, ?_, ?_, ?_⟩
  · simp [refreshHandler, jwtVerify, hsig, hexp, htype, hsess, hsell]
  · simp [refreshHandler, jwtVerify, hsig, hexp, htype, hsess, hsell]
  · rw [hdb, map_touch_preserves]
    intro s; rfl
  · rw [hdb, map_touch_preserves]
    intro s; rfl
  · rw [hdb, map_touch_preserves]
    intro s; rfl
  · rw [hdb, List.length_map]

/-- A concrete refresh token for `sellerS1`, as issued at verify
time. -/
def tokR : Jwt :=
  { payload := { userId := "S1", phone := "9999999999", name := "",
                 restaurant := "", addressId := none, menuId := none,
                 type := "refresh" },
    secret := "sec", exp := 1000 }

/-- The concrete active session row storing `tokR`'s hash under
`envC.jwtHash`. -/
def sessRow : AuthSession :=
  { session_id := 1, seller_id := "S1", refresh_token_hash := "S1@1000",
    device_info := "ua", ip_address := "ip", expires_at := 900,
    is_active := true, last_used := none }

/-- A concrete database with the seller and the active session. -/
def dbSess : DB := { dbLogin with auth_sessions := [sessRow] }

/-- C6 witness: the concrete refresh succeeds, signs the access token
from the seller row's current data, touches only `last_used`, and keeps
the single session row with its hash. -/
theorem refresh_success_fresh_w :
    (refreshHandler envC 500 (some tokR) dbSess).1.status = 200 ∧
    (refreshHandler envC 500 (some tokR) dbSess).1.accessToken = some
      { payload := { userId := sellerS1.seller_id,
                     phone := sellerS1.rest_phone,
                     name := sellerS1.owner_name,
                     restaurant := sellerS1.restaurant_name,
                     addressId := sellerS1.address_id,
                     menuId := sellerS1.menu_id, type := "access" },
        secret := envC.secret, exp := 1400 } ∧
    (refreshHandler envC 500 (some tokR) dbSess).2.auth_sessions.map
        (fun s => s.refresh_token_hash) =
      dbSess.auth_sessions.map (fun s => s.refresh_token_hash) ∧
    (refreshHandler envC 500 (some tokR) dbSess).2.auth_sessions.length =
      dbSess.auth_sessions.length := by
  have h := refresh_success_fresh envC 500 tokR dbSess sessRow sellerS1
    (by decide) (by decide) (by decide) (by decide) (by decide)
  exact ⟨h.1, h.2.1, h.2.2.2.1, h.2.2.2.2.2.2⟩

/-- A concrete signature-valid access-type token for `sellerS1`. -/
def tokA : Jwt :=
  { payload := { userId := "S1", phone := "9999999999", name := "Asha",
                 restaurant := "Spice", addressId := some 7,
                 menuId := some 1, type := "access" },
    secret := "sec", exp := 1000 }

/-- A concrete refresh-type token signed with the wrong secret. -/
def tokBadSig : Jwt :=
  { payload := { userId := "S1", phone := "9999999999", name := "",
                 restaurant := "", addressId := none, menuId := none,
                 type := "refresh" },
    secret := "wrong", exp := 1000 }

/-- C2 counterexample: two failing refresh calls are distinguishable —
a signature-valid token whose declared type is not 'refresh' is
answered with a distinct 400 'Invalid token type', while a
bad-signature token gets the 401 'Invalid or expired refresh token', so
the error is not uniform across the claimed failure modes. -/
theorem refresh_uniform_error_cex :
    (refreshHandler envC 500 (some tokA) dbSess).1.status = 400 ∧
    (refreshHandler envC 500 (some tokA) dbSess).1.error =
      some "Invalid token type" ∧
    (refreshHandler envC 500 (some tokBadSig) dbSess).1.status = 401 ∧
    (refreshHandler envC 500 (some tokBadSig) dbSess).1.error =
      some "Invalid or expired refresh token" ∧
    ¬ (refreshHandler envC 500 (some tokA) dbSess).1 =
      (refreshHandler envC 500 (some tokBadSig) dbSess).1 := by
  decide

/-- C2 (amended): a refresh that fails signature or expiry
verification, or that finds no matching active unexpired session row
(including the expired-session case, excluded by the filter), is
answered with the uniform 401 'Invalid or expired refresh token' and no
database change; but a signature-valid token whose declared type is not
'refresh' is answered with a distinct 400 'Invalid token type'. -/
theorem refresh_failure_modes (env : Env) (now : Nat) (tok : Jwt)
    (db : DB) :
    (jwtVerify tok env.secret now = none →
      refreshHandler env now (some tok) db =
        (refreshErr 401 "Invalid or expired refresh token", db)) ∧
    (tok.secret = env.secret → now < tok.exp →
      tok.payload.type = "refresh" →
      (db.auth_sessions.filter (fun s =>
        s.seller_id == tok.payload.userId &&
        s.refresh_token_hash == env.jwtHash tok &&
        s.is_active && now < s.expires_at)).head? = none →
      refreshHandler env now (some tok) db =
        (refreshErr 401 "Invalid or expired refresh token", db)) ∧
    (tok.secret = env.secret → now < tok.exp →
      ¬ tok.payload.type = "refresh" →
      refreshHandler env now (some tok) db =
        (refreshErr 400 "Invalid token type", db)) := by
  refine ⟨?_, ?_, ?_⟩
  · intro hbad
    simp [refreshHandler, hbad]
  · intro hsig hexp htype hsess
    simp [refreshHandler, jwtVerify, hsig, hexp, htype, hsess]
  · intro hsig hexp htype
    simp [refreshHandler, jwtVerify, hsig, hexp,
      beq_eq_false_iff_ne.mpr htype]

/-- C2 witness: the uniform 401 on a concrete bad-signature token and
on a concrete valid refresh token with no session row, and the distinct
400 on a concrete wrong-type token. -/
theorem refresh_failure_modes_w :
    refreshHandler envC 500 (some tokBadSig) dbLogin =
      (refreshErr 401 "Invalid or expired refresh token", dbLogin) ∧
    refreshHandler envC 500 (some tokR) dbLogin =
      (refreshErr 401 "Invalid or expired refresh token", dbLogin) ∧
    refreshHandler envC 500 (some tokA) dbLogin =
      (refreshErr 400 "Invalid token type", dbLogin) := by
  refine ⟨?_, ?_, ?_⟩
  · exact (refresh_failure_modes envC 500 tokBadSig dbLogin).1 (by decide)
  · exact (refresh_failure_modes envC 500 tokR dbLogin).2.1 (by decide)
      (by decide) (by decide) (by decide)
  · exact (refresh_failure_modes envC 500 tokA dbLogin).2.2 (by decide)
      (by decide) (by decide)

/-- C3 counterexample: `authMiddleware`, which guards every `/api` data
route expecting a bearer access token, accepts a signature-valid token
whose declared type is 'refresh' instead of rejecting it. -/
theorem authMiddleware_accepts_refresh_cex :
    authMiddleware "sec" 500 (some tokR) = MwOutcome.passed "S1" := by
  decide

/-- C3 (amended): the handlers that inspect the declared type do enforce
token-type isolation — GET /auth/me rejects a signature-valid token
whose type is not 'access', and POST /auth/refresh rejects one whose
type is not 'refresh' — but `authMiddleware` (guarding the `/api`
routes, which expect access tokens) accepts every signature-valid
unexpired token regardless of its declared type. -/
theorem token_type_isolation (env : Env) (secret : String) (now : Nat)
    (tok : Jwt) (db : DB) :
    (tok.secret = env.secret → now < tok.exp →
      ¬ tok.payload.type = "access" →
      getMe env now (some tok) db =
        ⟨401, some "Invalid token type", false, none⟩) ∧
    (tok.secret = env.secret → now < tok.exp →
      ¬ tok.payload.type = "refresh" →
      refreshHandler env now (some tok) db =
        (refreshErr 400 "Invalid token type", db)) ∧
    (tok.secret = secret → now < tok.exp →
      authMiddleware secret now (some tok) =
        MwOutcome.passed tok.payload.userId) := by
  refine ⟨?_, ?_, ?_⟩
  · intro hsig hexp htype
    simp [getMe, jwtVerify, hsig, hexp, beq_eq_false_iff_ne.mpr htype]
  · intro hsig hexp htype
    simp [refreshHandler, jwtVerify, hsig, hexp,
      beq_eq_false_iff_ne.mpr htype]
  · intro hsig hexp
    simp [authMiddleware, jwtVerify, hsig, hexp]

/-- C3 witness: concretely, /auth/me turns away the refresh-type token,
/auth/refresh turns away the access-type token, and the middleware
passes the access-type token through. -/
theorem token_type_isolation_w :
    getMe envC 500 (some tokR) dbLogin =
      ⟨401, some "Invalid token type", false, none⟩ ∧
    refreshHandler envC 500 (some tokA) dbSess =
      (refreshErr 400 "Invalid token type", dbSess) ∧
    authMiddleware "sec" 500 (some tokA) = MwOutcome.passed "S1" := by
  refine ⟨?_, ?_, ?_⟩
  · exact (token_type_isolation envC "sec" 500 tokR dbLogin).1 (by decide)
      (by decide) (by decide)
  · exact (token_type_isolation envC "sec" 500 tokA dbSess).2.1 (by decide)
      (by decide) (by decide)
  · exact (token_type_isolation envC "sec" 500 tokA dbLogin).2.2 (by decide)
      (by decide)

end Nazdeeki
